import Mathlib

/-!
# Verification of the multi-stage financial-analysis pipeline

Shallow embedding of the core of the `Financial_Systems_LangGraph`
repository: the indicator engine and fundamental scorer of
`financial_data_agent.py`, and the LangGraph pipeline orchestrator of
`langgraph_financial_agent.py` (`_collect_financial_data`,
`_perform_technical_analysis`, `_perform_fundamental_analysis`,
`_analyze_market_sentiment`, `_generate_insights`,
`_create_visualizations`, `_generate_recommendations`, `analyze_stocks`).

Modelling conventions:
* Python floats are modelled as rationals (ℚ).  Where the source's IEEE
  float semantics matters (the `inf`/`NaN` results of pandas division in
  the RSI computation) it is made explicit by case analysis.
* Python `dict`s keyed by symbol are modelled as association lists in
  insertion order; Python `None`-able values and absent dict keys are
  modelled as `Option`.
* Python truthiness tests on optional floats (`if metrics.get('x'):`)
  are modelled as: the value is present and nonzero.
* External capabilities (yfinance fetch, the LLM, chart rendering) and
  the possibility of a caught per-symbol exception inside a stage body
  are modelled as oracle functions returning `Option`: `none` stands for
  a raised (and caught) exception.
-/

/-! ## Data model -/

/-- One row of the price-history frame: the fields the core reads
(`Close`, `Volume`) of `{timestamp, open, high, low, close, volume}`. -/
structure Bar where
  close : ℚ
  volume : ℚ
deriving DecidableEq, Repr

/-- `financial_metrics` as built by `_extract_financial_metrics`:
every metric is optional (absent keys were dropped by the
`if v is not None` cleanup). -/
structure Metrics where
  market_cap : Option ℚ := none
  pe_ratio : Option ℚ := none
  forward_pe : Option ℚ := none
  price_to_book : Option ℚ := none
  debt_to_equity : Option ℚ := none
  roe : Option ℚ := none
  roa : Option ℚ := none
  profit_margin : Option ℚ := none
  revenue_growth : Option ℚ := none
  earnings_growth : Option ℚ := none
  dividend_yield : Option ℚ := none
  beta : Option ℚ := none
  week52_high : Option ℚ := none
  week52_low : Option ℚ := none
  avg_volume : Option ℚ := none
  sector : Option String := none
  industry : Option String := none
deriving DecidableEq, Repr

/-- The `analysis_summary` dict produced by
`FinancialDataAgent._perform_technical_analysis`.  An empty history (or
the caught-exception `{'error': ...}` result) is modelled as the record
with every field `none`: the orchestrator only ever reads it through
`dict.get`, which returns `None` for each missing key in both cases. -/
structure TechSummary where
  current_price : Option ℚ := none
  ma_20 : Option ℚ := none
  ma_50 : Option ℚ := none
  rsi : Option ℚ := none
  price_change_1d : Option ℚ := none
  price_change_1w : Option ℚ := none
  price_change_1m : Option ℚ := none
  volatility : Option ℚ := none
  trend_signal : Option String := none
  volume_trend : Option String := none
deriving DecidableEq, Repr

/-- The `FinancialData` dataclass of `financial_data_agent.py`. -/
structure FinancialData where
  symbol : String
  company_name : String
  current_price : ℚ
  price_history : List Bar
  financial_metrics : Metrics
  news : List String
  analysis_summary : TechSummary
deriving DecidableEq, Repr

/-! ## Indicator engine (`financial_data_agent.py`) -/

/-- pandas `series.rolling(window=w).mean()` evaluated at index `i`
(0-based): defined once the window is full (`w ≤ i+1`), the mean of the
`w` entries ending at `i`; `NaN` (here `none`) before that. -/
def rollingMeanAt (w : ℕ) (xs : List ℚ) (i : ℕ) : Option ℚ :=
  if w ≤ i + 1 then some (((xs.take (i + 1)).drop (i + 1 - w)).sum / (w : ℚ)) else none

/-- `hist_data['Close'].rolling(window=w).mean().iloc[-1]`, converted to
`None` when `NaN` (source lines 112-113 and 123-124): the trailing
simple moving average. -/
def maLast (w : ℕ) (xs : List ℚ) : Option ℚ :=
  if xs.length = 0 then none else rollingMeanAt w xs (xs.length - 1)

/-- `delta.where(delta > 0, 0)` for `delta = Close.diff()`: the first
entry of `diff()` is `NaN`, and `NaN > 0` is false, so it becomes `0`;
every later entry is `max (cᵢ − cᵢ₋₁) 0`. -/
def gainList (cs : List ℚ) : List ℚ :=
  if cs.isEmpty then [] else 0 :: List.zipWith (fun a b => max (b - a) 0) cs (cs.drop 1)

/-- `-delta.where(delta < 0, 0)`: sign-flipped negative deltas, the
leading `NaN` again replaced by `0`. -/
def lossList (cs : List ℚ) : List ℚ :=
  if cs.isEmpty then [] else 0 :: List.zipWith (fun a b => max (a - b) 0) cs (cs.drop 1)

/-- Mean of the last 14 entries of a list (the full trailing
`rolling(window=14)` window). -/
def last14avg (xs : List ℚ) : ℚ :=
  ((xs.drop (xs.length - 14)).sum) / 14

/-- Trailing 14-period average gain (`gain.iloc[-1]`). -/
def gainAvg14 (cs : List ℚ) : ℚ := last14avg (gainList cs)

/-- Trailing 14-period average loss (`loss.iloc[-1]`). -/
def lossAvg14 (cs : List ℚ) : ℚ := last14avg (lossList cs)

/-- `rsi.iloc[-1]` of source lines 116-125, converted to `None` when
`NaN`.  The rolling means are `NaN` (so the RSI is undefined) until the
14-entry window is full, i.e. for fewer than 14 closes — the leading
`NaN` of `diff()` was already replaced by `0` and therefore counts as an
observation.  The source divides floats, so when the loss average is `0`
and the gain average is positive, `rs = inf` and
`rsi = 100 - 100/(1 + inf) = 100` (defined!); only `0/0` gives `NaN`,
i.e. an undefined RSI.  That float behaviour is made explicit here. -/
def rsiLast (cs : List ℚ) : Option ℚ :=
  if cs.length < 14 then none
  else if lossAvg14 cs = 0 then
    (if gainAvg14 cs = 0 then none else some 100)
  else some (100 - 100 / (1 + gainAvg14 cs / lossAvg14 cs))

/-- `_determine_trend_signal` (source lines 152-170).  The guards
`if ma_20 and ma_50:` and `if rsi:` are Python truthiness tests: they
fail both for `None` and for `0`. -/
def determineTrendSignal (price : ℚ) (ma20 ma50 rsi : Option ℚ) : String :=
  let maSignals : List String :=
    match ma20, ma50 with
    | some m2, some m5 =>
      if m2 ≠ 0 ∧ m5 ≠ 0 then
        [if m2 < price ∧ m5 < m2 then "bullish"
         else if price < m2 ∧ m2 < m5 then "bearish"
         else "neutral"]
      else []
    | _, _ => []
  let rsiSignals : List String :=
    match rsi with
    | some r =>
      if r ≠ 0 then
        (if 70 < r then ["overbought"] else if r < 30 then ["oversold"] else [])
      else []
    | none => []
  let signals := maSignals ++ rsiSignals
  if signals.isEmpty then "neutral" else String.intercalate ", " signals

/-- `hist_data['Volume'].tail(5).mean()`: mean volume of the most
recent 5 observations. -/
def recentVolMean (vols : List ℚ) : ℚ :=
  ((vols.drop (vols.length - 5)).sum) / 5

/-- `hist_data['Volume'].head(-5).mean()`: mean volume of all
observations except the last 5. -/
def histVolMean (vols : List ℚ) : ℚ :=
  ((vols.take (vols.length - 5)).sum) / ((vols.length : ℚ) - 5)

/-- `_analyze_volume_trend` (source lines 172-185).  Note the strict
comparisons `recent > historical * 1.2` and `recent < historical * 0.8`
of the source. -/
def analyzeVolumeTrend (vols : List ℚ) : String :=
  if vols.length < 10 then "insufficient_data"
  else if histVolMean vols * (12 / 10) < recentVolMean vols then "increasing"
  else if recentVolMean vols < histVolMean vols * (8 / 10) then "decreasing"
  else "stable"

/-! ## Fundamental scorer (`langgraph_financial_agent.py`) -/

/-- Python truthiness of an optional float: `if metrics.get('x'):`
succeeds exactly when the metric is present and nonzero.  The surviving
value is returned. -/
def truthy (o : Option ℚ) : Option ℚ :=
  match o with
  | some x => if x = 0 then none else some x
  | none => none

/-- The dict built by `_analyze_valuation`: each key is absent unless
its `if` branch ran. -/
structure StockValuation where
  pe_assessment : Option String := none
  pe_ratio : Option ℚ := none
  pb_assessment : Option String := none
  price_to_book : Option ℚ := none
deriving DecidableEq, Repr

/-- `_analyze_valuation` (source lines 176-198). -/
def analyzeValuation (m : Metrics) : StockValuation :=
  { pe_assessment := (truthy m.pe_ratio).map fun pe =>
      if pe < 15 then "Potentially undervalued (low P/E)"
      else if 25 < pe then "Potentially overvalued (high P/E)"
      else "Reasonable valuation",
    pe_ratio := truthy m.pe_ratio,
    pb_assessment := (truthy m.price_to_book).bind fun pb =>
      if pb < 1 then some "Trading below book value"
      else if 3 < pb then some "Trading at premium to book value"
      else none,
    price_to_book := truthy m.price_to_book }

/-- The dict built by `_analyze_profitability`; the margin and ROE are
stored multiplied by 100, as in the source. -/
structure Profitability where
  profit_margin : Option ℚ := none
  margin_assessment : Option String := none
  roe : Option ℚ := none
  roe_assessment : Option String := none
deriving DecidableEq, Repr

/-- `_analyze_profitability` (source lines 200-224). -/
def analyzeProfitability (m : Metrics) : Profitability :=
  { profit_margin := (truthy m.profit_margin).map fun pm => pm * 100,
    margin_assessment := (truthy m.profit_margin).map fun pm =>
      if 20 < pm * 100 then "Strong profitability"
      else if 10 < pm * 100 then "Good profitability"
      else "Low profitability",
    roe := (truthy m.roe).map fun r => r * 100,
    roe_assessment := (truthy m.roe).map fun r =>
      if 15 < r * 100 then "Strong return on equity"
      else if 10 < r * 100 then "Decent return on equity"
      else "Low return on equity" }

/-- The dict built by `_analyze_growth`. -/
structure Growth where
  revenue_growth : Option ℚ := none
  growth_assessment : Option String := none
  earnings_growth : Option ℚ := none
deriving DecidableEq, Repr

/-- `_analyze_growth` (source lines 226-244). -/
def analyzeGrowth (m : Metrics) : Growth :=
  { revenue_growth := (truthy m.revenue_growth).map fun g => g * 100,
    growth_assessment := (truthy m.revenue_growth).map fun g =>
      if 15 < g * 100 then "Strong revenue growth"
      else if 5 < g * 100 then "Moderate revenue growth"
      else "Slow revenue growth",
    earnings_growth := (truthy m.earnings_growth).map fun g => g * 100 }

/-- The dict built by `_analyze_financial_health`. -/
structure Health where
  debt_to_equity : Option ℚ := none
  leverage_assessment : Option String := none
  beta : Option ℚ := none
  risk_assessment : Option String := none
deriving DecidableEq, Repr

/-- `_analyze_financial_health` (source lines 246-270). -/
def analyzeFinancialHealth (m : Metrics) : Health :=
  { debt_to_equity := truthy m.debt_to_equity,
    leverage_assessment := (truthy m.debt_to_equity).map fun de =>
      if de < 3 / 10 then "Conservative debt levels"
      else if de < 6 / 10 then "Moderate debt levels"
      else "High debt levels",
    beta := truthy m.beta,
    risk_assessment := (truthy m.beta).map fun b =>
      if 3 / 2 < b then "High volatility vs market"
      else if b < 1 / 2 then "Low volatility vs market"
      else "Moderate volatility vs market" }

/-- The per-symbol dict the orchestrator's fundamental stage builds
(source lines 156-163). -/
structure FundEntry where
  valuation : StockValuation
  profitability : Profitability
  growth : Growth
  financial_health : Health
  sector : Option String
  industry : Option String
deriving DecidableEq, Repr

/-- The body of the per-symbol loop of `_perform_fundamental_analysis`
(source lines 153-165). -/
def fundBody (d : FinancialData) : FundEntry :=
  { valuation := analyzeValuation d.financial_metrics,
    profitability := analyzeProfitability d.financial_metrics,
    growth := analyzeGrowth d.financial_metrics,
    financial_health := analyzeFinancialHealth d.financial_metrics,
    sector := d.financial_metrics.sector,
    industry := d.financial_metrics.industry }

/-! ## Orchestrator stage bodies (`langgraph_financial_agent.py`) -/

/-- The per-symbol dict the orchestrator's technical stage builds
(source lines 123-133). -/
structure TechEntry where
  signals : List String
  trend : String
  volatility : Option ℚ
  rsi : Option ℚ
  price_change_1d : Option ℚ
  price_change_1w : Option ℚ
  price_change_1m : Option ℚ
deriving DecidableEq, Repr

/-- The body of the per-symbol loop of the orchestrator's
`_perform_technical_analysis` (source lines 92-133).  All the
`analysis.get(...)` guards are Python truthiness tests.  (A float `NaN`
stored under `volatility` would be truthy in Python but fails both of
its comparisons, appending no signal — the same outcome as `none`
here.) -/
def techBody (d : FinancialData) : TechEntry :=
  let a := d.analysis_summary
  let rsiSignals : List String :=
    match truthy a.rsi with
    | some r =>
      [if 70 < r then "RSI indicates overbought conditions"
       else if r < 30 then "RSI indicates oversold conditions"
       else "RSI in neutral territory"]
    | none => []
  let maSignals : List String :=
    match truthy a.ma_20, truthy a.ma_50, truthy a.current_price with
    | some m2, some m5, some p =>
      if m2 < p ∧ m5 < m2 then ["Bullish trend - price above moving averages"]
      else if p < m2 ∧ m2 < m5 then ["Bearish trend - price below moving averages"]
      else []
    | _, _, _ => []
  let volSignals : List String :=
    match truthy a.volatility with
    | some v =>
      if 30 < v then ["High volatility detected"]
      else if v < 15 then ["Low volatility environment"]
      else []
    | none => []
  { signals := rsiSignals ++ maSignals ++ volSignals,
    trend := a.trend_signal.getD "neutral",
    volatility := a.volatility,
    rsi := a.rsi,
    price_change_1d := a.price_change_1d,
    price_change_1w := a.price_change_1w,
    price_change_1m := a.price_change_1m }

/-- The per-symbol dict the sentiment stage builds (source lines
303-306 and 310). -/
structure SentEntry where
  sentiment : String
  news_count : ℕ
deriving DecidableEq, Repr

/-- The entry written by the `except` handler of the sentiment loop
(source line 310). -/
def fallbackSentiment : SentEntry :=
  { sentiment := "Neutral - Unable to analyze", news_count := 0 }

/-! ## Pipeline state and stages -/

/-- Lookup in an association list modelling a Python dict. -/
def alookup {α : Type} : List (String × α) → String → Option α
  | [], _ => none
  | (k, v) :: rest, s => if k = s then some v else alookup rest s

/-- The keys of an association list. -/
def keysOf {α : Type} (m : List (String × α)) : List String :=
  m.map Prod.fst

/-- `FinancialAnalysisState`: the shared mutable context of one run.
`processed_analysis` is a nested dict in the source; its `technical`,
`fundamental`, `sentiment` and `insights` slots are separate fields
here.  `insights = none` models the key not yet being set. -/
structure AnalysisState where
  symbols : List String
  analysis_type : String
  period : String
  raw_data : List (String × FinancialData)
  technical : List (String × TechEntry)
  fundamental : List (String × FundEntry)
  sentiment : List (String × SentEntry)
  insights : Option String
  recommendations : List String
  messages : List String
  chart_paths : List String
  error_messages : List String

/-- The initial state built by `analyze_stocks` (source lines
430-440). -/
def initState (symbols : List String) (analysis_type period : String) : AnalysisState :=
  { symbols := symbols, analysis_type := analysis_type, period := period,
    raw_data := [], technical := [], fundamental := [], sentiment := [],
    insights := none, recommendations := [], messages := [],
    chart_paths := [], error_messages := [] }

/-- The error-log entry appended when a symbol's fetch raises (source
line 74); the appended `str(e)` suffix carries no information the
claims depend on and is elided. -/
def collectErrMsg (s : String) : String :=
  "Failed to collect data for " ++ s

/-- `_collect_financial_data` (source lines 61-82): fetch every
requested symbol, keeping successes in `raw_data` keyed by the loop
variable `symbol` (the caller-supplied string, not the normalized
`data.symbol`), and appending one error entry per failed symbol.  Both
`raw_data` and `error_messages` are *replaced*, and `messages` is reset
to the one summary entry.  The fetch oracle returns `none` where the
fetch raised.  (A Python dict would collapse duplicate symbols; the
association list keeps both entries, so theorems about entry values
assume a duplicate-free symbol list, as §3 of the spec requires.) -/
def collectStage (fetch : String → String → Option FinancialData)
    (st : AnalysisState) : AnalysisState :=
  let raw := st.symbols.filterMap fun s => (fetch s st.period).map fun d => (s, d)
  let errs := st.symbols.filterMap fun s =>
    match fetch s st.period with
    | some _ => none
    | none => some (collectErrMsg s)
  { st with raw_data := raw, error_messages := errs,
            messages := ["Collected data for " ++ toString raw.length ++ " symbols"] }

/-- The orchestrator's `_perform_technical_analysis` (source lines
84-144): iterate `raw_data`, run the per-symbol body, and on a caught
exception `continue` — the symbol is omitted.  The body is passed as an
oracle returning `none` where the Python body raised; its concrete
non-raising value is `techBody`. -/
def technicalStage (tb : String → FinancialData → Option TechEntry)
    (st : AnalysisState) : AnalysisState :=
  { st with
    technical := st.raw_data.filterMap fun p => (tb p.1 p.2).map fun t => (p.1, t),
    messages := st.messages ++ ["Technical analysis completed"] }

/-- `_perform_fundamental_analysis` (source lines 146-174): same
shape; the concrete non-raising body is `fundBody`. -/
def fundamentalStage (fb : String → FinancialData → Option FundEntry)
    (st : AnalysisState) : AnalysisState :=
  { st with
    fundamental := st.raw_data.filterMap fun p => (fb p.1 p.2).map fun e => (p.1, e),
    messages := st.messages ++ ["Fundamental analysis completed"] }

/-- The per-symbol body of `_analyze_market_sentiment` (source lines
279-310).  The prompt interpolates
`state['processed_analysis']['technical'][symbol]['price_changes']` —
a `KeyError` when the symbol was skipped by the technical stage — and
applies `:.2f` to the 1-day and 1-week changes — a `TypeError` when one
is `None`.  Both exceptions, and a failed LLM call (`llm ... = none`),
are caught by the surrounding `except`, which *inserts the fallback
entry* rather than omitting the symbol.  The prompt-string formatting
is pure; its ingredients are passed to the LLM oracle unformatted. -/
def sentimentBody (llm : String → FinancialData → ℚ → ℚ → Option String)
    (tech : List (String × TechEntry)) (s : String) (d : FinancialData) : SentEntry :=
  match alookup tech s with
  | none => fallbackSentiment
  | some t =>
    match t.price_change_1d, t.price_change_1w with
    | some c1, some c7 =>
      match llm s d c1 c7 with
      | some txt => { sentiment := txt, news_count := d.news.length }
      | none => fallbackSentiment
    | _, _ => fallbackSentiment

/-- `_analyze_market_sentiment` (source lines 272-315): every
`raw_data` symbol receives an entry — real or fallback. -/
def sentimentStage (llm : String → FinancialData → ℚ → ℚ → Option String)
    (st : AnalysisState) : AnalysisState :=
  { st with
    sentiment := st.raw_data.map fun p => (p.1, sentimentBody llm st.technical p.1 p.2),
    messages := st.messages ++ ["Market sentiment analysis completed"] }

/-- `_generate_insights` (source lines 317-356): one aggregate LLM
call over the whole accumulated analysis (hence the oracle takes the
state); on failure the fixed fallback text is stored and no
completion message is appended. -/
def insightsStage (gen : AnalysisState → Option String)
    (st : AnalysisState) : AnalysisState :=
  { st with
    insights := some ((gen st).getD "Unable to generate insights due to an error."),
    messages := st.messages ++
      (if (gen st).isSome then ["Insights generated successfully"] else []) }

/-- `_create_visualizations` (source lines 358-375): render a chart
per `raw_data` symbol, skipping failures. -/
def visualizationStage (render : FinancialData → Option String)
    (st : AnalysisState) : AnalysisState :=
  let cps := st.raw_data.filterMap fun p => render p.2
  { st with chart_paths := cps,
            messages := st.messages ++
              ["Created " ++ toString cps.length ++ " visualizations"] }

/-- `_generate_recommendations` (source lines 377-416): one aggregate
LLM call; on failure the fixed fallback text is stored and no
completion message is appended. -/
def recommendationStage (gen : AnalysisState → Option String)
    (st : AnalysisState) : AnalysisState :=
  { st with
    recommendations := [(gen st).getD "Unable to generate recommendations due to an error."],
    messages := st.messages ++
      (if (gen st).isSome then ["Investment recommendations generated"] else []) }

/-- One LangGraph super-step of `graph.invoke` for a node whose body
*appends to the received messages list in place* (`state["messages"]
.append(...)`) — i.e. every node except `_collect_financial_data`.
`messages` is declared `Annotated[List, operator.add]` (source line
18), so after the node returns, the channel is reduced to
`current + returned`.  Every node here returns the full state, and
(checkpointer-free LangGraph passing channel values by reference) the
node's in-place append mutates the channel's own list, so `current`
and `returned` are the same appended list: the channel becomes
`ret.messages ++ ret.messages`, duplicating the accumulated log at
every such step.  Every other state key is a plain `LastValue`
channel, for which `current + returned` is just `returned` — the
record update below.  No theorem in this file depends on the exact
shape of the duplicated log (which would also depend on whether the
runtime copies state into the node): only on membership of a stage's
message and on the `LastValue` fields. -/
def stepAppending (node : AnalysisState → AnalysisState)
    (ch : AnalysisState) : AnalysisState :=
  let ret := node ch
  { ret with messages := ret.messages ++ ret.messages }

/-- One LangGraph super-step for the one node whose body *replaces*
the messages entry with a fresh list (`state["messages"] = [...]` in
`_collect_financial_data`, source line 80): the channel's own list is
left unmutated, so the `operator.add` reduction yields
`ch.messages ++ ret.messages`. -/
def stepReplacing (node : AnalysisState → AnalysisState)
    (ch : AnalysisState) : AnalysisState :=
  let ret := node ch
  { ret with messages := ch.messages ++ ret.messages }

/-- `analyze_stocks` (source lines 418-446) invoking the compiled
linear graph of `_create_workflow` (source lines 35-59): the seven
node bodies applied in their fixed edge order, each through the
channel-reduction super-step (`operator.add` on `messages`,
`LastValue` on every other key).  The input application of
`graph.invoke(initial_state)` adds the initial empty messages list to
the empty channel, i.e. starts from `initState`.  Note: no validation
of `symbols` happens here — the state is built and the graph invoked
unconditionally. -/
def analyzeStocks (fetch : String → String → Option FinancialData)
    (tb : String → FinancialData → Option TechEntry)
    (fb : String → FinancialData → Option FundEntry)
    (llm : String → FinancialData → ℚ → ℚ → Option String)
    (genInsights : AnalysisState → Option String)
    (render : FinancialData → Option String)
    (genRecs : AnalysisState → Option String)
    (symbols : List String) (analysis_type period : String) : AnalysisState :=
  stepAppending (recommendationStage genRecs)
    (stepAppending (visualizationStage render)
      (stepAppending (insightsStage genInsights)
        (stepAppending (sentimentStage llm)
          (stepAppending (fundamentalStage fb)
            (stepAppending (technicalStage tb)
              (stepReplacing (collectStage fetch)
                (initState symbols analysis_type period)))))))

/-! ## `fetch_stock_data` symbol normalization -/

/-- The data `fetch_stock_data` obtains from its collaborators for one
symbol: the yfinance `info`/`history`/`news` results together with the
computed `analysis_summary`. -/
structure RawInfo where
  company_name : String
  current_price : ℚ
  price_history : List Bar
  financial_metrics : Metrics
  news : List String
  analysis_summary : TechSummary
deriving Repr

/-- Python's `str.upper()`, written through the character list so the
kernel can evaluate it (extensionally `String.toUpper` on the ASCII
ticker strings in play). -/
def upperStr (s : String) : String :=
  String.mk (s.data.map Char.toUpper)

/-- `FinancialDataAgent.fetch_stock_data` (source lines 28-78):
assembles the `FinancialData` record, normalizing only the `symbol`
field via `symbol.upper()` (source line 68).  The yfinance interaction
and the summary computation are absorbed into the oracle `ext`;
`ext s period = none` models the re-raised fetch exception. -/
def fetchStockData (ext : String → String → Option RawInfo)
    (symbol period : String) : Option FinancialData :=
  (ext symbol period).map fun r =>
    { symbol := upperStr symbol,
      company_name := r.company_name,
      current_price := r.current_price,
      price_history := r.price_history,
      financial_metrics := r.financial_metrics,
      news := r.news,
      analysis_summary := r.analysis_summary }


/-! ## Sample data for concrete runs -/

/-- Sample metrics used to exercise concrete runs. -/
def sampleMetrics : Metrics :=
  { pe_ratio := some 10, debt_to_equity := some (8 / 10) }

/-- Sample technical summary used to exercise concrete runs. -/
def sampleSummary : TechSummary :=
  { current_price := some 110, ma_20 := some 105, ma_50 := some 100,
    rsi := some 50, price_change_1d := some 1, price_change_1w := some 2,
    price_change_1m := some 3, volatility := some 20,
    trend_signal := some "bullish", volume_trend := some "stable" }

/-- A concrete `FinancialData` record for witnesses. -/
def sampleData : FinancialData :=
  { symbol := "AAPL", company_name := "Apple Inc.", current_price := 110,
    price_history := [], financial_metrics := sampleMetrics,
    news := ["headline"], analysis_summary := sampleSummary }

/-- The fetch-collaborator oracle behind `fetchStockData` in concrete
runs: succeeds for every symbol with the sample payload. -/
def extSample : String → String → Option RawInfo := fun _ _ => some
  { company_name := "Apple Inc.", current_price := 110, price_history := [],
    financial_metrics := sampleMetrics, news := ["headline"],
    analysis_summary := sampleSummary }

/-! ## Helper lemmas -/

lemma mem_keysOf {α : Type} {m : List (String × α)} {s : String} :
    s ∈ keysOf m ↔ ∃ v, (s, v) ∈ m := by
  constructor
  · intro h
    rcases List.mem_map.mp h with ⟨⟨k, v⟩, hkv, hk⟩
    exact ⟨v, by simpa [← hk] using hkv⟩
  · rintro ⟨v, hv⟩
    exact List.mem_map.mpr ⟨(s, v), hv, rfl⟩

lemma keysOf_map_body {α β : Type} (g : String → α → β) (m : List (String × α)) :
    keysOf (m.map fun q => (q.1, g q.1 q.2)) = keysOf m := by
  simp [keysOf, List.map_map, Function.comp]

lemma alookup_map_body {α β : Type} (g : String → α → β) (m : List (String × α))
    (s : String) :
    alookup (m.map fun q => (q.1, g q.1 q.2)) s = (alookup m s).map (g s) := by
  induction m with
  | nil => rfl
  | cons q rest ih =>
    rcases q with ⟨k, v⟩
    by_cases hk : k = s
    · subst hk
      simp [alookup]
    · simp [alookup, hk, ih]

lemma alookup_eq_some_of_mem {α : Type} {m : List (String × α)} {s : String} {v : α}
    (hnd : (keysOf m).Nodup) (h : (s, v) ∈ m) : alookup m s = some v := by
  induction m with
  | nil => cases h
  | cons q rest ih =>
    rcases q with ⟨k, w⟩
    rcases List.mem_cons.mp h with heq | hmem
    · cases heq
      simp [alookup]
    · have hk : k ≠ s := by
        intro hk
        subst hk
        exact (List.nodup_cons.mp hnd).1 (mem_keysOf.mpr ⟨v, hmem⟩)
      simp only [alookup, if_neg hk]
      exact ih (List.nodup_cons.mp hnd).2 hmem

lemma mem_raw_iff (fetch : String → String → Option FinancialData)
    (p : String) (syms : List String) (s : String) (d : FinancialData) :
    ((s, d) ∈ syms.filterMap fun x => (fetch x p).map fun d => (x, d)) ↔
      s ∈ syms ∧ fetch s p = some d := by
  simp only [List.mem_filterMap, Option.map_eq_some']
  constructor
  · rintro ⟨x, hx, d', hd', heq⟩
    cases heq
    exact ⟨hx, hd'⟩
  · rintro ⟨hs, hd⟩
    exact ⟨s, hs, d, hd, rfl⟩

lemma keysOf_raw_eq (fetch : String → String → Option FinancialData)
    (p : String) (syms : List String) :
    keysOf (syms.filterMap fun x => (fetch x p).map fun d => (x, d)) =
      syms.filter fun x => (fetch x p).isSome := by
  induction syms with
  | nil => rfl
  | cons x rest ih =>
    cases hfx : fetch x p with
    | none => simpa [keysOf, List.filterMap_cons, List.filter_cons, hfx] using ih
    | some d => simpa [keysOf, List.filterMap_cons, List.filter_cons, hfx] using ih

lemma mem_keysOf_stageMap {β : Type} (raw : List (String × FinancialData))
    (body : String → FinancialData → Option β) (s : String) :
    s ∈ keysOf (raw.filterMap fun q => (body q.1 q.2).map fun t => (q.1, t)) ↔
      ∃ d t, (s, d) ∈ raw ∧ body s d = some t := by
  rw [mem_keysOf]
  constructor
  · rintro ⟨v, hv⟩
    rcases List.mem_filterMap.mp hv with ⟨⟨k, d⟩, hmem, hopt⟩
    rcases Option.map_eq_some'.mp hopt with ⟨t, hbody, heq⟩
    injection heq with h1 h2
    subst h1
    subst h2
    exact ⟨d, t, hmem, hbody⟩
  · rintro ⟨d, t, hmem, hbody⟩
    exact ⟨t, List.mem_filterMap.mpr ⟨(s, d), hmem, by simp [hbody]⟩⟩

lemma collectErrMsg_inj {x y : String} (h : collectErrMsg x = collectErrMsg y) :
    x = y := by
  unfold collectErrMsg at h
  have hd := congrArg String.data h
  simp only [String.data_append] at hd
  exact String.ext (List.append_cancel_left hd)

lemma count_collect_errs (fetch : String → String → Option FinancialData)
    (p : String) (syms : List String) (s : String)
    (hnd : syms.Nodup) (hs : s ∈ syms) (hf : fetch s p = none) :
    (syms.filterMap fun x =>
        match fetch x p with
        | some _ => none
        | none => some (collectErrMsg x)).count (collectErrMsg s) = 1 := by
  induction syms with
  | nil => cases hs
  | cons x rest ih =>
    have hx_not : x ∉ rest := (List.nodup_cons.mp hnd).1
    have hnd' : rest.Nodup := (List.nodup_cons.mp hnd).2
    rcases List.mem_cons.mp hs with rfl | hsr
    · have hzero :
          (rest.filterMap fun y =>
            match fetch y p with
            | some _ => none
            | none => some (collectErrMsg y)).count (collectErrMsg s) = 0 := by
        rw [List.count_eq_zero]
        intro hmem
        rcases List.mem_filterMap.mp hmem with ⟨y, hy, hmatch⟩
        have hy_eq : collectErrMsg y = collectErrMsg s := by
          cases hfy : fetch y p with
          | some d => rw [hfy] at hmatch; cases hmatch
          | none => rw [hfy] at hmatch; exact (Option.some_inj.mp hmatch)
        exact hx_not (collectErrMsg_inj hy_eq ▸ hy)
      simp [List.filterMap_cons, hf, List.count_cons, hzero]
    · have hx_ne : collectErrMsg x ≠ collectErrMsg s := by
        intro h
        exact hx_not (collectErrMsg_inj h ▸ hsr)
      cases hfx : fetch x p with
      | some d => simpa [List.filterMap_cons, hfx] using ih hnd' hsr
      | none => simpa [List.filterMap_cons, hfx, List.count_cons, hx_ne] using ih hnd' hsr

lemma messages_stepAppending (node : AnalysisState → AnalysisState)
    (ch : AnalysisState) :
    (stepAppending node ch).messages = (node ch).messages ++ (node ch).messages := rfl

lemma messages_stepReplacing (node : AnalysisState → AnalysisState)
    (ch : AnalysisState) :
    (stepReplacing node ch).messages = ch.messages ++ (node ch).messages := rfl

lemma messages_sentimentStage (llm : String → FinancialData → ℚ → ℚ → Option String)
    (st : AnalysisState) :
    (sentimentStage llm st).messages =
      st.messages ++ ["Market sentiment analysis completed"] := rfl

lemma messages_insightsStage (gen : AnalysisState → Option String) (st : AnalysisState) :
    (insightsStage gen st).messages =
      st.messages ++ (if (gen st).isSome then ["Insights generated successfully"] else []) := rfl

lemma messages_visualizationStage (render : FinancialData → Option String)
    (st : AnalysisState) :
    (visualizationStage render st).messages =
      st.messages ++ ["Created " ++
        toString (st.raw_data.filterMap fun p => render p.2).length ++ " visualizations"] := rfl

lemma messages_recommendationStage (gen : AnalysisState → Option String)
    (st : AnalysisState) :
    (recommendationStage gen st).messages =
      st.messages ++
        (if (gen st).isSome then ["Investment recommendations generated"] else []) := rfl

lemma zipWith_max_sub_nonneg (f : ℚ → ℚ → ℚ) (l1 l2 : List ℚ)
    (hf : ∀ a b, 0 ≤ max (f a b) 0) :
    ∀ x ∈ List.zipWith (fun a b => max (f a b) 0) l1 l2, 0 ≤ x := by
  induction l1 generalizing l2 with
  | nil => simp
  | cons a l ih =>
    cases l2 with
    | nil => simp
    | cons b l2 =>
      intro x hx
      rcases List.mem_cons.mp hx with rfl | h
      · exact hf a b
      · exact ih l2 x h

lemma gainList_nonneg (cs : List ℚ) : ∀ x ∈ gainList cs, 0 ≤ x := by
  unfold gainList
  split
  · simp
  · intro x hx
    rcases List.mem_cons.mp hx with rfl | h
    · exact le_refl 0
    · exact zipWith_max_sub_nonneg (fun a b => b - a) cs (cs.drop 1)
        (fun a b => le_max_right _ _) x h

lemma lossList_nonneg (cs : List ℚ) : ∀ x ∈ lossList cs, 0 ≤ x := by
  unfold lossList
  split
  · simp
  · intro x hx
    rcases List.mem_cons.mp hx with rfl | h
    · exact le_refl 0
    · exact zipWith_max_sub_nonneg (fun a b => a - b) cs (cs.drop 1)
        (fun a b => le_max_right _ _) x h

lemma last14avg_nonneg (xs : List ℚ) (hx : ∀ x ∈ xs, 0 ≤ x) : 0 ≤ last14avg xs := by
  unfold last14avg
  apply div_nonneg _ (by norm_num)
  exact List.sum_nonneg fun x hmem => hx x (List.drop_subset _ _ hmem)

lemma gainAvg14_nonneg (cs : List ℚ) : 0 ≤ gainAvg14 cs :=
  last14avg_nonneg _ (gainList_nonneg cs)

lemma lossAvg14_nonneg (cs : List ℚ) : 0 ≤ lossAvg14 cs :=
  last14avg_nonneg _ (lossList_nonneg cs)

lemma maLast_of_le (w : ℕ) (hw : 0 < w) (cs : List ℚ) (h : w ≤ cs.length) :
    maLast w cs = some ((cs.drop (cs.length - w)).sum / (w : ℚ)) := by
  unfold maLast rollingMeanAt
  have hn : cs.length ≠ 0 := by omega
  have h1 : cs.length - 1 + 1 = cs.length := by omega
  rw [if_neg hn, h1, if_pos h, List.take_length]

lemma maLast_of_lt (w : ℕ) (cs : List ℚ) (h : cs.length < w) :
    maLast w cs = none := by
  unfold maLast rollingMeanAt
  by_cases hn : cs.length = 0
  · rw [if_pos hn]
  · have h1 : cs.length - 1 + 1 = cs.length := by omega
    rw [if_neg hn, h1, if_neg (by omega)]

/-! ## Claims -/

/-- C4 (corrected): the claim asserts that RSI(14) is undefined for
fewer than 15 observations and undefined whenever the trailing
loss-average is zero.  Both parts fail on the code: with exactly 14
strictly increasing closes the loss-average is zero, yet the RSI is
defined and equals 100 (the float division yields `inf`, and
`100 - 100/(1+inf) = 100`, which is not `NaN`, so the `pd.isna` guard
keeps it). -/
theorem c4_rsi_counterexample :
    ([1, 2, 3, 4, 5, 6, 7, 8, 9, 10, 11, 12, 13, 14] : List ℚ).length < 15 ∧
    lossAvg14 ([1, 2, 3, 4, 5, 6, 7, 8, 9, 10, 11, 12, 13, 14] : List ℚ) = 0 ∧
    rsiLast ([1, 2, 3, 4, 5, 6, 7, 8, 9, 10, 11, 12, 13, 14] : List ℚ) = some 100 := by
  refine ⟨by norm_num, ?_, ?_⟩
  · norm_num [lossAvg14, last14avg, lossList]
  · norm_num [rsiLast, lossAvg14, gainAvg14, last14avg, lossList, gainList]

/-- C4 (amended): RSI(14) is in [0, 100] whenever it is defined; it is
undefined when the series has fewer than 14 observations; when the
trailing 14-period loss-average is zero, it equals 100 if the
gain-average is nonzero and is undefined if the gain-average is also
zero. -/
theorem c4_rsi_range_and_definedness (cs : List ℚ) :
    (∀ r, rsiLast cs = some r → 0 ≤ r ∧ r ≤ 100) ∧
    (cs.length < 14 → rsiLast cs = none) ∧
    (14 ≤ cs.length → lossAvg14 cs = 0 → gainAvg14 cs ≠ 0 → rsiLast cs = some 100) ∧
    (14 ≤ cs.length → lossAvg14 cs = 0 → gainAvg14 cs = 0 → rsiLast cs = none) := by
  refine ⟨?_, ?_, ?_, ?_⟩
  · intro r hr
    unfold rsiLast at hr
    by_cases hlen : cs.length < 14
    · rw [if_pos hlen] at hr
      cases hr
    · rw [if_neg hlen] at hr
      by_cases hl : lossAvg14 cs = 0
      · rw [if_pos hl] at hr
        by_cases hg : gainAvg14 cs = 0
        · rw [if_pos hg] at hr
          cases hr
        · rw [if_neg hg] at hr
          cases Option.some_inj.mp hr
          norm_num
      · rw [if_neg hl] at hr
        cases Option.some_inj.mp hr
        have hg : 0 ≤ gainAvg14 cs := gainAvg14_nonneg cs
        have hlpos : 0 < lossAvg14 cs := lt_of_le_of_ne (lossAvg14_nonneg cs) (Ne.symm hl)
        have hrs : 0 ≤ gainAvg14 cs / lossAvg14 cs := div_nonneg hg hlpos.le
        have hden : (0 : ℚ) < 1 + gainAvg14 cs / lossAvg14 cs := by linarith
        have hle : 100 / (1 + gainAvg14 cs / lossAvg14 cs) ≤ 100 := by
          rw [div_le_iff₀ hden]
          nlinarith
        have hpos : 0 < 100 / (1 + gainAvg14 cs / lossAvg14 cs) := by positivity
        constructor <;> linarith
  · intro hlen
    unfold rsiLast
    rw [if_pos hlen]
  · intro hlen hl hg
    unfold rsiLast
    rw [if_neg (by omega), if_pos hl, if_neg hg]
  · intro hlen hl hg
    unfold rsiLast
    rw [if_neg (by omega), if_pos hl, if_pos hg]

/-- Witness for C4's amended theorem: a 15-observation series with
alternating gains and losses has RSI 50, inside [0, 100]. -/
theorem c4_rsi_witness : (0 : ℚ) ≤ 50 ∧ (50 : ℚ) ≤ 100 :=
  (c4_rsi_range_and_definedness
      ([1, 2, 1, 2, 1, 2, 1, 2, 1, 2, 1, 2, 1, 2, 1] : List ℚ)).1 50
    (by norm_num [rsiLast, lossAvg14, gainAvg14, last14avg, lossList, gainList])

/-- C5 (confirmed): for a series of at least 50 observations `ma_50` is
defined and is the arithmetic mean of the last 50 closes; with fewer it
is absent — and the same with threshold 20 for `ma_20`. -/
theorem c5_moving_average_mean (cs : List ℚ) :
    (50 ≤ cs.length → maLast 50 cs = some ((cs.drop (cs.length - 50)).sum / 50)) ∧
    (cs.length < 50 → maLast 50 cs = none) ∧
    (20 ≤ cs.length → maLast 20 cs = some ((cs.drop (cs.length - 20)).sum / 20)) ∧
    (cs.length < 20 → maLast 20 cs = none) := by
  refine ⟨?_, ?_, ?_, ?_⟩
  · intro h
    exact maLast_of_le 50 (by norm_num) cs h
  · intro h
    exact maLast_of_lt 50 cs h
  · intro h
    exact maLast_of_le 20 (by norm_num) cs h
  · intro h
    exact maLast_of_lt 20 cs h

/-- Witness for C5: a 50-observation constant series has `ma_50` equal
to the mean of its last 50 closes, and a 19-observation series has no
`ma_20`. -/
theorem c5_moving_average_witness :
    maLast 50 (List.replicate 50 (2 : ℚ)) =
      some (((List.replicate 50 (2 : ℚ)).drop ((List.replicate 50 (2 : ℚ)).length - 50)).sum / 50) ∧
    maLast 20 (List.replicate 19 (2 : ℚ)) = none :=
  ⟨(c5_moving_average_mean (List.replicate 50 (2 : ℚ))).1 (by decide),
   (c5_moving_average_mean (List.replicate 19 (2 : ℚ))).2.2.2 (by decide)⟩

/-- The metrics record of C6's counterexample: a present but zero
P/E ratio. -/
def peZeroMetrics : Metrics := { pe_ratio := some 0 }

/-- C6 (counterexample): the claim says `pe_ratio < 15` yields the
undervalued assessment, but for `pe_ratio = 0` (which is `< 15`) the
truthiness guard `if metrics.get('pe_ratio'):` fails and no assessment
key is produced at all. -/
theorem c6_zero_pe_counterexample :
    ((0 : ℚ) < 15) ∧ (analyzeValuation peZeroMetrics).pe_assessment = none := by
  refine ⟨by norm_num, ?_⟩
  simp [analyzeValuation, truthy, peZeroMetrics]

/-- C6 (amended): the fundamental scorer is a pure, deterministic
function of its input metrics; for a metric that is present *and
nonzero* the fixed threshold rules apply (`pe_ratio < 15` undervalued,
`> 25` overvalued, otherwise reasonable; `debt_to_equity < 0.3`
conservative, `< 0.6` moderate, else high), and for every metric absent
from the input the corresponding assessment key is absent from the
output. -/
theorem c6_scorer_thresholds (m : Metrics) :
    (∀ pe, m.pe_ratio = some pe → pe ≠ 0 →
      (analyzeValuation m).pe_assessment =
        some (if pe < 15 then "Potentially undervalued (low P/E)"
          else if 25 < pe then "Potentially overvalued (high P/E)"
          else "Reasonable valuation")) ∧
    (m.pe_ratio = none → (analyzeValuation m).pe_assessment = none) ∧
    (∀ de, m.debt_to_equity = some de → de ≠ 0 →
      (analyzeFinancialHealth m).leverage_assessment =
        some (if de < 3 / 10 then "Conservative debt levels"
          else if de < 6 / 10 then "Moderate debt levels"
          else "High debt levels")) ∧
    (m.debt_to_equity = none → (analyzeFinancialHealth m).leverage_assessment = none) ∧
    (m.profit_margin = none → (analyzeProfitability m).margin_assessment = none) ∧
    (m.price_to_book = none → (analyzeValuation m).pb_assessment = none) ∧
    (m.beta = none → (analyzeFinancialHealth m).risk_assessment = none) := by
  refine ⟨?_, ?_, ?_, ?_, ?_, ?_, ?_⟩
  · intro pe hpe hne
    simp [analyzeValuation, truthy, hpe, hne]
  · intro hpe
    simp [analyzeValuation, truthy, hpe]
  · intro de hde hne
    simp [analyzeFinancialHealth, truthy, hde, hne]
  · intro hde
    simp [analyzeFinancialHealth, truthy, hde]
  · intro hpm
    simp [analyzeProfitability, truthy, hpm]
  · intro hpb
    simp [analyzeValuation, truthy, hpb]
  · intro hb
    simp [analyzeFinancialHealth, truthy, hb]

/-- Witness for C6's amended theorem at the spec's own examples:
`pe_ratio = 10` is assessed undervalued and `debt_to_equity = 0.8` is
assessed high debt. -/
theorem c6_scorer_witness :
    (analyzeValuation sampleMetrics).pe_assessment =
      some "Potentially undervalued (low P/E)" ∧
    (analyzeFinancialHealth sampleMetrics).leverage_assessment =
      some "High debt levels" := by
  have h := c6_scorer_thresholds sampleMetrics
  refine ⟨?_, ?_⟩
  · have h1 := h.1 10 rfl (by norm_num)
    rw [if_pos (by norm_num : (10 : ℚ) < 15)] at h1
    exact h1
  · have h2 := h.2.2.1 (8 / 10) rfl (by norm_num)
    rw [if_neg (by norm_num : ¬ (8 / 10 : ℚ) < 3 / 10),
        if_neg (by norm_num : ¬ (8 / 10 : ℚ) < 6 / 10)] at h2
    exact h2

/-- The volume list of C7's counterexample: the recent-5 mean is
exactly 1.2 times the historical mean. -/
def volTrendBoundary : List ℚ := [100, 100, 100, 100, 100, 120, 120, 120, 120, 120]

/-- A volume list matching the spec's own "increasing" example:
recent-5 mean 150, historical mean 100. -/
def volTrendUp : List ℚ := [100, 100, 100, 100, 100, 150, 150, 150, 150, 150]

/-- C7 (counterexample): the claim classifies a recent-5 mean of *at
least* 1.2× the historical mean as "increasing", but the source
compares strictly (`recent > historical * 1.2`): at exactly 1.2× the
code answers "stable". -/
theorem c7_volume_trend_counterexample :
    recentVolMean volTrendBoundary = 120 ∧
    histVolMean volTrendBoundary = 100 ∧
    (12 / 10 : ℚ) * 100 ≤ 120 ∧
    analyzeVolumeTrend volTrendBoundary = "stable" := by
  refine ⟨?_, ?_, by norm_num, ?_⟩
  · norm_num [recentVolMean, volTrendBoundary]
  · norm_num [histVolMean, volTrendBoundary]
  · norm_num [analyzeVolumeTrend, recentVolMean, histVolMean, volTrendBoundary]

/-- C7 (amended): with at least 10 observations the volume trend is
"increasing" when the recent-5 mean strictly exceeds 1.2× the
historical mean, "decreasing" when it is strictly below 0.8× (and the
increasing test failed), and "stable" otherwise; with fewer than 10
observations it is "insufficient_data". -/
theorem c7_volume_trend (vols : List ℚ) :
    (vols.length < 10 → analyzeVolumeTrend vols = "insufficient_data") ∧
    (10 ≤ vols.length →
      (histVolMean vols * (12 / 10) < recentVolMean vols →
        analyzeVolumeTrend vols = "increasing") ∧
      (¬ histVolMean vols * (12 / 10) < recentVolMean vols →
        recentVolMean vols < histVolMean vols * (8 / 10) →
        analyzeVolumeTrend vols = "decreasing") ∧
      (¬ histVolMean vols * (12 / 10) < recentVolMean vols →
        ¬ recentVolMean vols < histVolMean vols * (8 / 10) →
        analyzeVolumeTrend vols = "stable")) := by
  refine ⟨?_, ?_⟩
  · intro h
    unfold analyzeVolumeTrend
    rw [if_pos h]
  · intro hlen
    refine ⟨?_, ?_, ?_⟩
    · intro h1
      unfold analyzeVolumeTrend
      rw [if_neg (by omega), if_pos h1]
    · intro h1 h2
      unfold analyzeVolumeTrend
      rw [if_neg (by omega), if_neg h1, if_pos h2]
    · intro h1 h2
      unfold analyzeVolumeTrend
      rw [if_neg (by omega), if_neg h1, if_neg h2]

/-- Witness for C7's amended theorem at the spec's example: recent-5
mean 150 against historical mean 100 is classified "increasing". -/
theorem c7_volume_trend_witness : analyzeVolumeTrend volTrendUp = "increasing" :=
  ((c7_volume_trend volTrendUp).2 (by decide)).1
    (by norm_num [histVolMean, recentVolMean, volTrendUp])

/-- C10 (confirmed): a metric or indicator present with value 0 is
treated exactly like an absent one — the scorer's output is unchanged
when a zero metric is replaced by an absent one (and correspondingly no
assessment key is produced), and the trend-signal classifier behaves
identically for a zero and an absent `ma_20`/`ma_50`/`rsi`: truthiness,
not presence, gates each judgment. -/
theorem c10_zero_gates_like_absent (m : Metrics) (price : ℚ) (o20 o50 orsi : Option ℚ) :
    analyzeValuation { m with pe_ratio := some 0 } =
      analyzeValuation { m with pe_ratio := none } ∧
    analyzeValuation { m with price_to_book := some 0 } =
      analyzeValuation { m with price_to_book := none } ∧
    analyzeProfitability { m with profit_margin := some 0 } =
      analyzeProfitability { m with profit_margin := none } ∧
    analyzeFinancialHealth { m with debt_to_equity := some 0 } =
      analyzeFinancialHealth { m with debt_to_equity := none } ∧
    analyzeFinancialHealth { m with beta := some 0 } =
      analyzeFinancialHealth { m with beta := none } ∧
    (analyzeValuation { m with pe_ratio := some 0 }).pe_assessment = none ∧
    (analyzeValuation { m with price_to_book := some 0 }).pb_assessment = none ∧
    (analyzeProfitability { m with profit_margin := some 0 }).margin_assessment = none ∧
    (analyzeFinancialHealth { m with debt_to_equity := some 0 }).leverage_assessment = none ∧
    (analyzeFinancialHealth { m with beta := some 0 }).risk_assessment = none ∧
    determineTrendSignal price (some 0) o50 orsi =
      determineTrendSignal price none o50 orsi ∧
    determineTrendSignal price o20 (some 0) orsi =
      determineTrendSignal price o20 none orsi ∧
    determineTrendSignal price o20 o50 (some 0) =
      determineTrendSignal price o20 o50 none := by
  refine ⟨?_, ?_, ?_, ?_, ?_, ?_, ?_, ?_, ?_, ?_, ?_, ?_, ?_⟩
  · simp [analyzeValuation, truthy]
  · simp [analyzeValuation, truthy]
  · simp [analyzeProfitability, truthy]
  · simp [analyzeFinancialHealth, truthy]
  · simp [analyzeFinancialHealth, truthy]
  · simp [analyzeValuation, truthy]
  · simp [analyzeValuation, truthy]
  · simp [analyzeProfitability, truthy]
  · simp [analyzeFinancialHealth, truthy]
  · simp [analyzeFinancialHealth, truthy]
  · cases o50 <;> simp [determineTrendSignal]
  · cases o20 <;> simp [determineTrendSignal]
  · cases o20 <;> cases o50 <;> simp [determineTrendSignal]

/-- C1 (confirmed): a requested symbol whose fetch raises never appears
as a key of the technical, fundamental or sentiment maps of the final
context, and exactly one error-log entry references it.  The symbol
list is duplicate-free, as §3 of the spec requires of symbols. -/
theorem c1_fetch_failure_isolated
    (fetch : String → String → Option FinancialData)
    (tb : String → FinancialData → Option TechEntry)
    (fb : String → FinancialData → Option FundEntry)
    (llm : String → FinancialData → ℚ → ℚ → Option String)
    (gI : AnalysisState → Option String)
    (render : FinancialData → Option String)
    (gR : AnalysisState → Option String)
    (symbols : List String) (aty period : String) (s : String)
    (hnd : symbols.Nodup) (hs : s ∈ symbols) (hf : fetch s period = none) :
    s ∉ keysOf (analyzeStocks fetch tb fb llm gI render gR symbols aty period).technical ∧
    s ∉ keysOf (analyzeStocks fetch tb fb llm gI render gR symbols aty period).fundamental ∧
    s ∉ keysOf (analyzeStocks fetch tb fb llm gI render gR symbols aty period).sentiment ∧
    (analyzeStocks fetch tb fb llm gI render gR symbols aty period).error_messages.count
      (collectErrMsg s) = 1 := by
  have hraw : (analyzeStocks fetch tb fb llm gI render gR symbols aty period).raw_data =
      symbols.filterMap fun x => (fetch x period).map fun d => (x, d) := rfl
  have hnotraw : ∀ d : FinancialData,
      (s, d) ∈ (analyzeStocks fetch tb fb llm gI render gR symbols aty period).raw_data →
      False := by
    intro d hmem
    rw [hraw] at hmem
    have := ((mem_raw_iff fetch period symbols s d).mp hmem).2
    rw [hf] at this
    cases this
  refine ⟨?_, ?_, ?_, ?_⟩
  · intro hmem
    have htech : (analyzeStocks fetch tb fb llm gI render gR symbols aty period).technical =
        (analyzeStocks fetch tb fb llm gI render gR symbols aty period).raw_data.filterMap
          fun q => (tb q.1 q.2).map fun t => (q.1, t) := rfl
    rw [htech] at hmem
    rcases (mem_keysOf_stageMap _ _ _).mp hmem with ⟨d, t, hmemraw, _⟩
    exact hnotraw d hmemraw
  · intro hmem
    have hfund : (analyzeStocks fetch tb fb llm gI render gR symbols aty period).fundamental =
        (analyzeStocks fetch tb fb llm gI render gR symbols aty period).raw_data.filterMap
          fun q => (fb q.1 q.2).map fun e => (q.1, e) := rfl
    rw [hfund] at hmem
    rcases (mem_keysOf_stageMap _ _ _).mp hmem with ⟨d, t, hmemraw, _⟩
    exact hnotraw d hmemraw
  · intro hmem
    have hsent : (analyzeStocks fetch tb fb llm gI render gR symbols aty period).sentiment =
        (analyzeStocks fetch tb fb llm gI render gR symbols aty period).raw_data.map
          fun q => (q.1, sentimentBody llm
            (analyzeStocks fetch tb fb llm gI render gR symbols aty period).technical
            q.1 q.2) := rfl
    rw [hsent, keysOf_map_body] at hmem
    rcases mem_keysOf.mp hmem with ⟨d, hmemraw⟩
    exact hnotraw d hmemraw
  · have herr : (analyzeStocks fetch tb fb llm gI render gR symbols aty period).error_messages =
        symbols.filterMap fun x =>
          match fetch x period with
          | some _ => none
          | none => some (collectErrMsg x) := rfl
    rw [herr]
    exact count_collect_errs fetch period symbols s hnd hs hf

/-- Witness for C1: a one-symbol run whose only fetch fails. -/
theorem c1_fetch_failure_witness :
    "AAPL" ∉ keysOf (analyzeStocks (fun _ _ => none) (fun _ _ => none) (fun _ _ => none)
        (fun _ _ _ _ => none) (fun _ => none) (fun _ => none) (fun _ => none)
        ["AAPL"] "single" "1y").technical ∧
    "AAPL" ∉ keysOf (analyzeStocks (fun _ _ => none) (fun _ _ => none) (fun _ _ => none)
        (fun _ _ _ _ => none) (fun _ => none) (fun _ => none) (fun _ => none)
        ["AAPL"] "single" "1y").fundamental ∧
    "AAPL" ∉ keysOf (analyzeStocks (fun _ _ => none) (fun _ _ => none) (fun _ _ => none)
        (fun _ _ _ _ => none) (fun _ => none) (fun _ => none) (fun _ => none)
        ["AAPL"] "single" "1y").sentiment ∧
    (analyzeStocks (fun _ _ => none) (fun _ _ => none) (fun _ _ => none)
        (fun _ _ _ _ => none) (fun _ => none) (fun _ => none) (fun _ => none)
        ["AAPL"] "single" "1y").error_messages.count (collectErrMsg "AAPL") = 1 :=
  c1_fetch_failure_isolated (fun _ _ => none) (fun _ _ => none) (fun _ _ => none)
    (fun _ _ _ _ => none) (fun _ => none) (fun _ => none) (fun _ => none)
    ["AAPL"] "single" "1y" "AAPL" (by decide) (by decide) rfl

/-- C2 (counterexample): the claim says a symbol whose sentiment-stage
work raises is omitted from the sentiment map.  In the source the
`except` handler instead *inserts* the fallback entry
`{'sentiment': 'Neutral - Unable to analyze', 'news_count': 0}`: in a
run where the LLM call raises for the only symbol, that symbol is
present in the sentiment map. -/
theorem c2_sentiment_omission_counterexample :
    alookup (analyzeStocks (fun _ _ => some sampleData) (fun _ d => some (techBody d))
        (fun _ d => some (fundBody d)) (fun _ _ _ _ => none) (fun _ => none)
        (fun _ => none) (fun _ => none) ["AAPL"] "single" "1y").sentiment "AAPL" =
      some fallbackSentiment := by
  rfl

/-- C2 (amended): a symbol whose per-symbol sentiment work raises is
*not* omitted — it receives the fallback entry
(`'Neutral - Unable to analyze'`, news count 0) in the sentiment map —
and the run is not aborted. -/
theorem c2_sentiment_fallback_not_omitted
    (fetch : String → String → Option FinancialData)
    (tb : String → FinancialData → Option TechEntry)
    (fb : String → FinancialData → Option FundEntry)
    (llm : String → FinancialData → ℚ → ℚ → Option String)
    (gI : AnalysisState → Option String)
    (render : FinancialData → Option String)
    (gR : AnalysisState → Option String)
    (symbols : List String) (aty period : String) (s : String) (d : FinancialData)
    (hnd : symbols.Nodup) (hs : s ∈ symbols) (hd : fetch s period = some d)
    (hllm : ∀ c1 c7, llm s d c1 c7 = none) :
    alookup (analyzeStocks fetch tb fb llm gI render gR symbols aty period).sentiment s =
      some fallbackSentiment ∧
    "Market sentiment analysis completed" ∈
      (analyzeStocks fetch tb fb llm gI render gR symbols aty period).messages := by
  constructor
  · have hsent : (analyzeStocks fetch tb fb llm gI render gR symbols aty period).sentiment =
        (analyzeStocks fetch tb fb llm gI render gR symbols aty period).raw_data.map
          fun q => (q.1, sentimentBody llm
            (analyzeStocks fetch tb fb llm gI render gR symbols aty period).technical
            q.1 q.2) := rfl
    have hraw : (analyzeStocks fetch tb fb llm gI render gR symbols aty period).raw_data =
        symbols.filterMap fun x => (fetch x period).map fun d => (x, d) := rfl
    have hmem : (s, d) ∈
        (analyzeStocks fetch tb fb llm gI render gR symbols aty period).raw_data := by
      rw [hraw]
      exact (mem_raw_iff fetch period symbols s d).mpr ⟨hs, hd⟩
    have hkeys :
        (keysOf (analyzeStocks fetch tb fb llm gI render gR symbols aty period).raw_data).Nodup := by
      rw [hraw, keysOf_raw_eq]
      exact hnd.filter _
    have hlook : alookup
        (analyzeStocks fetch tb fb llm gI render gR symbols aty period).raw_data s =
        some d := alookup_eq_some_of_mem hkeys hmem
    have hbody : ∀ tech, sentimentBody llm tech s d = fallbackSentiment := by
      intro tech
      unfold sentimentBody
      split
      · rfl
      · split
        · rw [hllm]
        · rfl
    rw [hsent, alookup_map_body, hlook, Option.map_some']
    exact congrArg some (hbody _)
  · have hrec : ∀ ch : AnalysisState, ∀ x ∈ ch.messages,
        x ∈ (stepAppending (recommendationStage gR) ch).messages := by
      intro ch x hx
      rw [messages_stepAppending, messages_recommendationStage]
      exact List.mem_append.mpr (Or.inl (List.mem_append.mpr (Or.inl hx)))
    have hviz : ∀ ch : AnalysisState, ∀ x ∈ ch.messages,
        x ∈ (stepAppending (visualizationStage render) ch).messages := by
      intro ch x hx
      rw [messages_stepAppending, messages_visualizationStage]
      exact List.mem_append.mpr (Or.inl (List.mem_append.mpr (Or.inl hx)))
    have hins : ∀ ch : AnalysisState, ∀ x ∈ ch.messages,
        x ∈ (stepAppending (insightsStage gI) ch).messages := by
      intro ch x hx
      rw [messages_stepAppending, messages_insightsStage]
      exact List.mem_append.mpr (Or.inl (List.mem_append.mpr (Or.inl hx)))
    have h0 : "Market sentiment analysis completed" ∈
        (stepAppending (sentimentStage llm) (stepAppending (fundamentalStage fb)
          (stepAppending (technicalStage tb)
            (stepReplacing (collectStage fetch)
              (initState symbols aty period))))).messages := by
      rw [messages_stepAppending, messages_sentimentStage]
      exact List.mem_append.mpr (Or.inl
        (List.mem_append.mpr (Or.inr (List.mem_singleton.mpr rfl))))
    exact hrec _ _ (hviz _ _ (hins _ _ h0))

/-- Witness for C2's amended theorem: one symbol, successful fetch,
LLM raising — the sentiment map holds the fallback entry. -/
theorem c2_sentiment_fallback_witness :
    alookup (analyzeStocks (fun _ _ => some sampleData) (fun _ _ => none)
        (fun _ d => some (fundBody d)) (fun _ _ _ _ => none) (fun _ => none)
        (fun _ => none) (fun _ => none) ["AAPL"] "single" "1y").sentiment "AAPL" =
      some fallbackSentiment ∧
    "Market sentiment analysis completed" ∈
      (analyzeStocks (fun _ _ => some sampleData) (fun _ _ => none)
        (fun _ d => some (fundBody d)) (fun _ _ _ _ => none) (fun _ => none)
        (fun _ => none) (fun _ => none) ["AAPL"] "single" "1y").messages :=
  c2_sentiment_fallback_not_omitted (fun _ _ => some sampleData) (fun _ _ => none)
    (fun _ d => some (fundBody d)) (fun _ _ _ _ => none) (fun _ => none)
    (fun _ => none) (fun _ => none) ["AAPL"] "single" "1y" "AAPL" sampleData
    (by decide) (by decide) rfl (fun _ _ => rfl)

/-- C3 (confirmed): a symbol whose technical-stage body raises is
skipped for the technical stage only — it has no entry in the technical
map, while (its own fundamental computation succeeding) it is present
in both the fundamental and the sentiment maps. -/
theorem c3_technical_skip_isolated
    (fetch : String → String → Option FinancialData)
    (tb : String → FinancialData → Option TechEntry)
    (fb : String → FinancialData → Option FundEntry)
    (llm : String → FinancialData → ℚ → ℚ → Option String)
    (gI : AnalysisState → Option String)
    (render : FinancialData → Option String)
    (gR : AnalysisState → Option String)
    (symbols : List String) (aty period : String) (s : String)
    (d : FinancialData) (fe : FundEntry)
    (hs : s ∈ symbols) (hd : fetch s period = some d)
    (htb : tb s d = none) (hfb : fb s d = some fe) :
    s ∉ keysOf (analyzeStocks fetch tb fb llm gI render gR symbols aty period).technical ∧
    s ∈ keysOf (analyzeStocks fetch tb fb llm gI render gR symbols aty period).fundamental ∧
    s ∈ keysOf (analyzeStocks fetch tb fb llm gI render gR symbols aty period).sentiment := by
  have hraw : (analyzeStocks fetch tb fb llm gI render gR symbols aty period).raw_data =
      symbols.filterMap fun x => (fetch x period).map fun d => (x, d) := rfl
  have hmemraw : (s, d) ∈
      (analyzeStocks fetch tb fb llm gI render gR symbols aty period).raw_data := by
    rw [hraw]
    exact (mem_raw_iff fetch period symbols s d).mpr ⟨hs, hd⟩
  refine ⟨?_, ?_, ?_⟩
  · intro hmem
    have htech : (analyzeStocks fetch tb fb llm gI render gR symbols aty period).technical =
        (analyzeStocks fetch tb fb llm gI render gR symbols aty period).raw_data.filterMap
          fun q => (tb q.1 q.2).map fun t => (q.1, t) := rfl
    rw [htech] at hmem
    rcases (mem_keysOf_stageMap _ _ _).mp hmem with ⟨d', t, hmem', hbody⟩
    rw [hraw] at hmem'
    have hd' := ((mem_raw_iff fetch period symbols s d').mp hmem').2
    rw [hd] at hd'
    cases Option.some_inj.mp hd'
    rw [htb] at hbody
    cases hbody
  · have hfund : (analyzeStocks fetch tb fb llm gI render gR symbols aty period).fundamental =
        (analyzeStocks fetch tb fb llm gI render gR symbols aty period).raw_data.filterMap
          fun q => (fb q.1 q.2).map fun e => (q.1, e) := rfl
    rw [hfund]
    exact (mem_keysOf_stageMap _ _ _).mpr ⟨d, fe, hmemraw, hfb⟩
  · have hsent : (analyzeStocks fetch tb fb llm gI render gR symbols aty period).sentiment =
        (analyzeStocks fetch tb fb llm gI render gR symbols aty period).raw_data.map
          fun q => (q.1, sentimentBody llm
            (analyzeStocks fetch tb fb llm gI render gR symbols aty period).technical
            q.1 q.2) := rfl
    rw [hsent, keysOf_map_body]
    exact mem_keysOf.mpr ⟨d, hmemraw⟩

/-- Witness for C3: one symbol, successful fetch, technical body
raising, fundamental body succeeding. -/
theorem c3_technical_skip_witness :
    "AAPL" ∉ keysOf (analyzeStocks (fun _ _ => some sampleData) (fun _ _ => none)
        (fun _ d => some (fundBody d)) (fun _ _ _ _ => none) (fun _ => none)
        (fun _ => none) (fun _ => none) ["AAPL"] "single" "1y").technical ∧
    "AAPL" ∈ keysOf (analyzeStocks (fun _ _ => some sampleData) (fun _ _ => none)
        (fun _ d => some (fundBody d)) (fun _ _ _ _ => none) (fun _ => none)
        (fun _ => none) (fun _ => none) ["AAPL"] "single" "1y").fundamental ∧
    "AAPL" ∈ keysOf (analyzeStocks (fun _ _ => some sampleData) (fun _ _ => none)
        (fun _ d => some (fundBody d)) (fun _ _ _ _ => none) (fun _ => none)
        (fun _ => none) (fun _ => none) ["AAPL"] "single" "1y").sentiment :=
  c3_technical_skip_isolated (fun _ _ => some sampleData) (fun _ _ => none)
    (fun _ d => some (fundBody d)) (fun _ _ _ _ => none) (fun _ => none)
    (fun _ => none) (fun _ => none) ["AAPL"] "single" "1y" "AAPL" sampleData
    (fundBody sampleData) (by decide) rfl rfl rfl

/-- C8 (counterexample): the claim says an empty symbol list fails
validation before the pipeline starts.  `analyze_stocks` performs no
such validation: invoked on `[]` it builds the state and runs the
graph, and every stage executes to completion — witnessed through the
plain `LastValue` channels each stage replaces: the collect stage left
an empty error log, every per-symbol map is empty, the visualization
stage wrote `chart_paths`, and the insight and final recommendation
nodes wrote their outputs.  (The `messages` log is deliberately not
used here: its exact shape depends on the `operator.add` reduction
described at `stepAppending`.) -/
theorem c8_empty_symbols_counterexample :
    (analyzeStocks (fun _ _ => none) (fun _ _ => none) (fun _ _ => none)
        (fun _ _ _ _ => none) (fun _ => some "insights") (fun _ => none)
        (fun _ => some "recommendations") [] "single" "1y").error_messages = [] ∧
    (analyzeStocks (fun _ _ => none) (fun _ _ => none) (fun _ _ => none)
        (fun _ _ _ _ => none) (fun _ => some "insights") (fun _ => none)
        (fun _ => some "recommendations") [] "single" "1y").raw_data = [] ∧
    (analyzeStocks (fun _ _ => none) (fun _ _ => none) (fun _ _ => none)
        (fun _ _ _ _ => none) (fun _ => some "insights") (fun _ => none)
        (fun _ => some "recommendations") [] "single" "1y").technical = [] ∧
    (analyzeStocks (fun _ _ => none) (fun _ _ => none) (fun _ _ => none)
        (fun _ _ _ _ => none) (fun _ => some "insights") (fun _ => none)
        (fun _ => some "recommendations") [] "single" "1y").fundamental = [] ∧
    (analyzeStocks (fun _ _ => none) (fun _ _ => none) (fun _ _ => none)
        (fun _ _ _ _ => none) (fun _ => some "insights") (fun _ => none)
        (fun _ => some "recommendations") [] "single" "1y").sentiment = [] ∧
    (analyzeStocks (fun _ _ => none) (fun _ _ => none) (fun _ _ => none)
        (fun _ _ _ _ => none) (fun _ => some "insights") (fun _ => none)
        (fun _ => some "recommendations") [] "single" "1y").chart_paths = [] ∧
    (analyzeStocks (fun _ _ => none) (fun _ _ => none) (fun _ _ => none)
        (fun _ _ _ _ => none) (fun _ => some "insights") (fun _ => none)
        (fun _ => some "recommendations") [] "single" "1y").insights = some "insights" ∧
    (analyzeStocks (fun _ _ => none) (fun _ _ => none) (fun _ _ => none)
        (fun _ _ _ _ => none) (fun _ => some "insights") (fun _ => none)
        (fun _ => some "recommendations") [] "single" "1y").recommendations =
      ["recommendations"] := by
  refine ⟨rfl, rfl, rfl, rfl, rfl, rfl, rfl, rfl⟩

/-- C8 (amended): `analyze_stocks` never aborts, but it also does not
validate its symbol list: for every symbol list — including the empty
one — the run completes through all stages.  Completion is stated
through the `LastValue` channels the stages replace (so it is
independent of the `operator.add` messages reduction): the error log
holds exactly the per-symbol data-collection failures (the only errors
recorded; later-stage failures cause omission or fallback, never an
abort), the chart-path list is exactly the successful renders over
`raw_data`, the insights field is always written, and the
recommendation stage always produces exactly one entry. -/
theorem c8_run_always_completes
    (fetch : String → String → Option FinancialData)
    (tb : String → FinancialData → Option TechEntry)
    (fb : String → FinancialData → Option FundEntry)
    (llm : String → FinancialData → ℚ → ℚ → Option String)
    (gI : AnalysisState → Option String)
    (render : FinancialData → Option String)
    (gR : AnalysisState → Option String)
    (symbols : List String) (aty period : String) :
    (analyzeStocks fetch tb fb llm gI render gR symbols aty period).error_messages =
      (symbols.filterMap fun x =>
        match fetch x period with
        | some _ => none
        | none => some (collectErrMsg x)) ∧
    (analyzeStocks fetch tb fb llm gI render gR symbols aty period).chart_paths =
      ((analyzeStocks fetch tb fb llm gI render gR symbols aty period).raw_data.filterMap
        fun p => render p.2) ∧
    ((analyzeStocks fetch tb fb llm gI render gR symbols aty period).insights).isSome
      = true ∧
    (analyzeStocks fetch tb fb llm gI render gR symbols aty period).recommendations.length
      = 1 := by
  refine ⟨rfl, rfl, ?_, rfl⟩
  have hins : (analyzeStocks fetch tb fb llm gI render gR symbols aty period).insights =
      some ((gI (stepAppending (sentimentStage llm)
        (stepAppending (fundamentalStage fb)
          (stepAppending (technicalStage tb)
            (stepReplacing (collectStage fetch)
              (initState symbols aty period)))))).getD
        "Unable to generate insights due to an error.") := rfl
  rw [hins]
  rfl

/-- C9 (counterexample): the claim says every key of the run's context
maps is uppercase-normalized regardless of caller casing.  A run over
the lowercase ticker `"aapl"` keys `raw_data` by `"aapl"` verbatim
(the orchestrator writes `raw_data[symbol] = data` with the
caller-supplied loop variable); only the `symbol` *field* of the
fetched record is uppercased. -/
theorem c9_lowercase_key_counterexample :
    keysOf (analyzeStocks (fetchStockData extSample) (fun _ d => some (techBody d))
        (fun _ d => some (fundBody d)) (fun _ _ _ _ => none) (fun _ => none)
        (fun _ => none) (fun _ => none) ["aapl"] "single" "1y").raw_data = ["aapl"] ∧
    (alookup (analyzeStocks (fetchStockData extSample) (fun _ d => some (techBody d))
        (fun _ d => some (fundBody d)) (fun _ _ _ _ => none) (fun _ => none)
        (fun _ => none) (fun _ => none) ["aapl"] "single" "1y").raw_data "aapl").map
      FinancialData.symbol = some "AAPL" ∧
    "aapl" ≠ "AAPL" := by
  refine ⟨rfl, by decide, by decide⟩

/-- C9 (amended): the context maps are keyed by the caller-supplied
ticker strings verbatim; `fetch_stock_data` uppercase-normalizes only
the `symbol` field stored inside the fetched record. -/
theorem c9_keys_follow_caller_casing
    (ext : String → String → Option RawInfo)
    (tb : String → FinancialData → Option TechEntry)
    (fb : String → FinancialData → Option FundEntry)
    (llm : String → FinancialData → ℚ → ℚ → Option String)
    (gI : AnalysisState → Option String)
    (render : FinancialData → Option String)
    (gR : AnalysisState → Option String)
    (symbols : List String) (aty period : String) (s : String) (d : FinancialData)
    (hmem : (s, d) ∈ (analyzeStocks (fetchStockData ext) tb fb llm gI render gR
        symbols aty period).raw_data) :
    s ∈ symbols ∧ d.symbol = upperStr s := by
  have hraw : (analyzeStocks (fetchStockData ext) tb fb llm gI render gR
      symbols aty period).raw_data =
      symbols.filterMap fun x => (fetchStockData ext x period).map fun d => (x, d) := rfl
  rw [hraw] at hmem
  rcases (mem_raw_iff (fetchStockData ext) period symbols s d).mp hmem with ⟨hs, hfd⟩
  unfold fetchStockData at hfd
  rcases Option.map_eq_some'.mp hfd with ⟨r, hr, heq⟩
  subst heq
  exact ⟨hs, rfl⟩

/-- The record `fetchStockData extSample` produces for the lowercase
ticker `"aapl"`. -/
def sampleFetchedLower : FinancialData :=
  { symbol := upperStr "aapl", company_name := "Apple Inc.", current_price := 110,
    price_history := [], financial_metrics := sampleMetrics,
    news := ["headline"], analysis_summary := sampleSummary }

/-- Witness for C9's amended theorem: the entry keyed `"aapl"` of a
lowercase-ticker run stores the uppercased symbol field. -/
theorem c9_keys_casing_witness :
    "aapl" ∈ ["aapl"] ∧ sampleFetchedLower.symbol = upperStr "aapl" :=
  c9_keys_follow_caller_casing extSample (fun _ d => some (techBody d))
    (fun _ d => some (fundBody d)) (fun _ _ _ _ => none) (fun _ => none)
    (fun _ => none) (fun _ => none) ["aapl"] "single" "1y" "aapl" sampleFetchedLower
    (List.mem_singleton.mpr rfl)
